import Mathlib

/-!
# Verification development for the chanlun-stock-picker pipeline

A shallow embedding in Lean 4 of the chanlun (缠论) analysis pipeline of
`app.py` together with the scoring / threshold module `chanlun_optimizer.py`.

Prices, volumes and indicator values are embedded as rationals (`ℚ`); Python
floats never reach NaN/inf on the code paths treated here (the one NaN source,
a short rolling window, is modelled explicitly where the code checks `pd.isna`).
A pandas `DataFrame` is embedded either as a list of typed bars (for the
candle-merging / fractal / stroke stages, which only touch the four price
columns) or as a list of association-list rows `List (String × ℚ)` (for the
stages where column presence and in-place column addition matter).
Python exceptions (`KeyError` from a missing column / dictionary key) are
embedded with `Except PyError`; the blanket `except Exception: return None`
of `analyze_stock` maps `Except.error` to `Option.none`.
-/

namespace Chanlun

/-- Python `KeyError` (the only exception kind the embedded paths can raise). -/
inductive PyError where
  | keyError (key : String)
  deriving Repr, DecidableEq

/-! ## Bars (the four price columns used by the chanlun core) -/

/-- One candle, the four price fields touched by `handle_inclusion`,
`is_top_fractal`, `is_bottom_fractal` and `find_strokes` in `app.py`. -/
structure Bar where
  op : ℚ      -- `open` (renamed: `open` is not a usable identifier)
  high : ℚ
  low : ℚ
  close : ℚ
  deriving Repr, DecidableEq

instance : Inhabited Bar := ⟨⟨0, 0, 0, 0⟩⟩

/-! ## Candle merger: `handle_inclusion` (app.py lines 589-622)

The Python code walks the frame with two nested `while` loops: the inner loop
absorbs every following candle that is in an inclusion relation with the
(continually updated) current candle; the outer loop restarts at the first
non-absorbed candle.  `hiLoop cur rest` is the direct recursive rendering:
it either absorbs the head of `rest` into `cur` or closes the current group
and starts a new one at the head. -/

/-- Merging step of `handle_inclusion`: absorb `next` into `current`
(`high = max`, `low = min`, `open`/`close` taken from `next`). -/
def absorbBar (current next : Bar) : Bar :=
  { op := next.op
    high := max current.high next.high
    low := min current.low next.low
    close := next.close }

/-- The inclusion test of `handle_inclusion`: `next` is included in `current`
or `next` includes `current` (comparisons are non-strict as in the source). -/
def inclusionRel (current next : Bar) : Bool :=
  (next.high ≥ current.high && next.low ≤ current.low) ||
  (next.high ≤ current.high && next.low ≥ current.low)

/-- Inner/outer loop of `handle_inclusion` on the trailing bars, with
`cur` the current (partially merged) candle. -/
def hiLoop (cur : Bar) : List Bar → List Bar
  | [] => [cur]
  | b :: bs =>
      if inclusionRel cur b then hiLoop (absorbBar cur b) bs
      else cur :: hiLoop b bs

/-- `handle_inclusion` (app.py): empty input is returned unchanged, otherwise
the first bar seeds the first merge group. -/
def handle_inclusion : List Bar → List Bar
  | [] => []
  | b :: bs => hiLoop b bs

/-! ## Fractals: `is_top_fractal` / `is_bottom_fractal` (app.py 624-642)

The Python functions index the frame with `iloc`; here the frame is a
`List Bar` and out-of-range access cannot happen because of the same guard
the source uses (`idx < 2 or idx >= len(df)` returns `False`). -/

/-- `is_top_fractal(df, idx)`: the middle bar `idx-1` tops both neighbours
in `high` and in `low`. -/
def is_top_fractal (df : List Bar) (idx : ℕ) : Bool :=
  if idx < 2 || idx ≥ df.length then false
  else
    let p2 := df.getD (idx - 1) default
    let p1 := df.getD (idx - 2) default
    let p3 := df.getD idx default
    p2.high > p1.high && p2.high > p3.high && p2.low > p1.low && p2.low > p3.low

/-- `is_bottom_fractal(df, idx)`: the middle bar `idx-1` bottoms both
neighbours in `low` and in `high`. -/
def is_bottom_fractal (df : List Bar) (idx : ℕ) : Bool :=
  if idx < 2 || idx ≥ df.length then false
  else
    let p2 := df.getD (idx - 1) default
    let p1 := df.getD (idx - 2) default
    let p3 := df.getD idx default
    p2.low < p1.low && p2.low < p3.low && p2.high < p1.high && p2.high < p3.high

/-! ## Strokes: `find_strokes` (app.py 644-692) -/

/-- Fractal kind (`'top'` / `'bottom'` in the Python dictionaries). -/
inductive FType where
  | top
  | bottom
  deriving Repr, DecidableEq

/-- A detected fractal: frame index of the middle bar, kind, and its price
(`high` for a top, `low` for a bottom). -/
structure Fractal where
  idx : ℕ
  ftype : FType
  price : ℚ
  deriving Repr, DecidableEq

/-- Stroke direction (`'up'` / `'down'`). -/
inductive SDir where
  | up
  | down
  deriving Repr, DecidableEq

/-- A stroke: direction plus start/end prices, exactly the three keys
`find_strokes` writes (there is no index key in these dictionaries). -/
structure Stroke where
  dir : SDir
  startP : ℚ
  endP : ℚ
  deriving Repr, DecidableEq

/-- Fractal scan of `find_strokes`: `for i in range(2, len(df))`, recording a
top (at `i-1`, price = its high) or else a bottom (at `i-1`, price = its low). -/
def scanFractals (df : List Bar) : List Fractal :=
  (List.range df.length).filterMap fun i =>
    if 2 ≤ i then
      if is_top_fractal df i then
        some ⟨i - 1, FType.top, (df.getD (i - 1) default).high⟩
      else if is_bottom_fractal df i then
        some ⟨i - 1, FType.bottom, (df.getD (i - 1) default).low⟩
      else none
    else none

/-- One iteration of the stroke-building loop of `find_strokes`; the state is
(`current_stroke_start`, strokes so far). -/
def strokeStep (st : Option Fractal × List Stroke) (f : Fractal) :
    Option Fractal × List Stroke :=
  match st with
  | (none, acc) => (some f, acc)
  | (some start, acc) =>
      if f.ftype ≠ start.ftype then
        if f.idx - start.idx ≥ 2 then
          if start.ftype = FType.bottom && f.ftype = FType.top &&
              f.price > start.price then
            (some f, acc ++ [⟨SDir.up, start.price, f.price⟩])
          else if start.ftype = FType.top && f.ftype = FType.bottom &&
              f.price < start.price then
            (some f, acc ++ [⟨SDir.down, start.price, f.price⟩])
          else (some f, acc)
        else (some f, acc)
      else
        if (f.ftype = FType.top && f.price > start.price) ||
            (f.ftype = FType.bottom && f.price < start.price) then
          (some f, acc)
        else (some start, acc)

/-- `find_strokes(df)`: returns (strokes, top-fractal count, bottom-fractal
count).  Fewer than 5 bars, or fewer than 2 fractals, yield no strokes. -/
def find_strokes (df : List Bar) : List Stroke × ℕ × ℕ :=
  if df.length < 5 then ([], 0, 0)
  else
    let fractals := scanFractals df
    let ding := fractals.countP (fun f => f.ftype = FType.top)
    let di := fractals.countP (fun f => f.ftype = FType.bottom)
    if fractals.length < 2 then ([], ding, di)
    else ((fractals.foldl strokeStep (none, [])).2, ding, di)

/-! ## Analysis-history persistence: `save_analysis_history` (app.py 130-147)

The JSON file is modelled as the list of batch entries it stores; the entry
appended by one call (timestamp + results) is abstract here. -/

/-- `save_analysis_history`: append the new batch, keep only the last 20
entries (`history[-20:]`), write back. -/
def save_analysis_history {α : Type} (history : List α) (entry : α) : List α :=
  (history ++ [entry]).drop ((history ++ [entry]).length - 20)

/-! ## Optimizer: `chanlun_optimizer.py` -/

/-- Market-trend strings `'bull' / 'neutral' / 'bear'` passed in the context
dictionaries (no other value is ever passed by `app.py`). -/
inductive Trend where
  | bear
  | neutral
  | bull
  deriving Repr, DecidableEq

/-- Rank of a trend for "the market factor improves" (bear < neutral < bull). -/
def Trend.rank : Trend → ℕ
  | .bear => 0
  | .neutral => 1
  | .bull => 2

/-- Letter grades `A`-`E` of `SignalScore.grade`. -/
inductive Grade where
  | A
  | B
  | C
  | D
  | E
  deriving Repr, DecidableEq

/-- Rank of a grade, higher is better (E < D < C < B < A). -/
def Grade.rank : Grade → ℕ
  | .E => 0
  | .D => 1
  | .C => 2
  | .B => 3
  | .A => 4

/-- `SignalScore` dataclass.  The `details` list of presentation strings
(f-strings interpolating the numbers) is not modelled; no claim touches it. -/
structure SignalScore where
  total_score : ℕ
  grade : Grade
  action : String
  probability : ℚ
  deriving Repr, DecidableEq

/-- Volatility bucket (`'low' / 'medium' / 'high'`). -/
inductive VLevel where
  | low
  | medium
  | high
  deriving Repr, DecidableEq

/-- The threshold dictionary returned by `get_dynamic_threshold`
(`'三买_max'`, `'三买_min'`, `'三卖_min'`, `'description'`). -/
structure Threshold where
  volatility_level : VLevel
  buy3_max : ℚ       -- '三买_max'
  buy3_min : ℚ       -- '三买_min'
  sell3_min : ℚ      -- '三卖_min'
  description : String
  deriving Repr, DecidableEq

/-- A (high, low, close) row as used by `calculate_atr` /
`get_dynamic_threshold`. -/
structure HLC where
  high : ℚ
  low : ℚ
  close : ℚ
  deriving Repr, DecidableEq

/-- True-range series of `calculate_atr`: row 0 has no previous close, its
`tr2`/`tr3` are NaN and pandas' row-wise `max` skips them, leaving `high-low`;
later rows take `max(high-low, |high-prevClose|, |low-prevClose|)`. -/
def trueRanges : List HLC → List ℚ
  | [] => []
  | r0 :: rest =>
      (r0.high - r0.low) ::
        (List.zipWith
          (fun prev r =>
            max (r.high - r.low) (max |r.high - prev.close| |r.low - prev.close|))
          (r0 :: rest) rest)

/-- `calculate_atr(df, period=20)`: the last value of the 20-bar rolling mean
of the true range; with fewer than 20 rows that value is NaN and the source
returns 0. -/
def calculate_atr (df : List HLC) : ℚ :=
  let tr := trueRanges df
  if tr.length < 20 then 0
  else (tr.drop (tr.length - 20)).sum / 20

/-- Mean of a list of rationals (sum/length; pandas `mean` of an empty column
is NaN, which the caller's `avg_price > 0` test treats like any non-positive
value, and `q / 0 = 0` here keeps the same branch). -/
def listMean (xs : List ℚ) : ℚ :=
  xs.sum / xs.length

/-- The ATR / mean-close volatility ratio computed inside
`get_dynamic_threshold` (0.03 when the mean close is not positive). -/
def volatilityOf (df : List HLC) : ℚ :=
  let avg := listMean (df.map HLC.close)
  if avg > 0 then calculate_atr df / avg else 3 / 100

/-- Bucketing of `get_dynamic_threshold`: `> 0.04` high, `> 0.025` medium,
otherwise low, each with its threshold dictionary. -/
def thresholdOfVolatility (volatility : ℚ) : Threshold :=
  if volatility > 4 / 100 then
    ⟨VLevel.high, 25, 3, 2, "高波动股"⟩
  else if volatility > 25 / 1000 then
    ⟨VLevel.medium, 15, 2, 2, "中波动股"⟩
  else
    ⟨VLevel.low, 10, 1, 3 / 2, "低波动股"⟩

/-- `get_dynamic_threshold(df, code)` (the `code` argument is unused). -/
def get_dynamic_threshold (df : List HLC) : Threshold :=
  thresholdOfVolatility (volatilityOf df)

/-- The `signal_type` string argument of `is_valid_breakout`. -/
inductive BreakSigType where
  | buy3       -- '三买'
  | sell3      -- '三卖'
  | other
  deriving Repr, DecidableEq

/-- The reason strings of `is_valid_breakout`, by branch identity (the
f-string interpolations of the numeric values are not modelled). -/
inductive BreakReason where
  | insufficient     -- "突破幅度…不足（最低…%）"
  | chaseRisk        -- "突破幅度…过大（最高…%），追高风险"
  | reasonable       -- "突破幅度…在合理区间"
  | sellInsufficient -- "跌破幅度…不足"
  | sellValid        -- "跌破幅度…有效"
  | empty            -- ""
  deriving Repr, DecidableEq

/-- `is_valid_breakout(breakout_pct, threshold, signal_type)`. -/
def is_valid_breakout (breakout_pct : ℚ) (threshold : Threshold)
    (signal_type : BreakSigType) : Bool × BreakReason :=
  match signal_type with
  | .buy3 =>
      if breakout_pct < threshold.buy3_min then (false, .insufficient)
      else if breakout_pct > threshold.buy3_max then (false, .chaseRisk)
      else (true, .reasonable)
  | .sell3 =>
      if breakout_pct < threshold.sell3_min then (false, .sellInsufficient)
      else (true, .sellValid)
  | .other => (true, .empty)

/-! ### `score_buy_signal` / `score_sell_signal`

The Python context dictionaries are duck-typed; the fields below are exactly
the keys the functions read, with the `.get` default applied when `analyze_stock`
omits the key (`stop_loss_price` keeps its "default depends on another field"
shape as an `Option`). -/

/-- The `signal_type` argument of `score_buy_signal` (`'三买'` default,
`'二买'`). -/
inductive BuySigType where
  | buy3
  | buy2
  deriving Repr, DecidableEq

/-- Context dictionary for `score_buy_signal`; field order follows the
docstring, defaults are those of the `.get` calls. -/
structure BuyCtx where
  current_vol : ℚ := 0
  ma20_vol : ℚ := 1
  market_trend : Trend := .neutral
  breakout_pct : ℚ := 0
  distance_to_max : ℚ := 50
  pullback_depth : ℚ := 30
  current_price : ℚ := 0
  stop_loss_price : Option ℚ := none   -- default `current_price * 0.95`
  is_standard_pattern : Bool := false
  has_bottom_fractal : Bool := false
  sublevel_confirm : Bool := false
  deriving Repr, DecidableEq

/-- The volume ratio `current_vol / max(ma20_vol, 1)` used by both scorers. -/
def volRatio (current_vol ma20_vol : ℚ) : ℚ :=
  current_vol / max ma20_vol 1

/-- 二买 item 1: pullback-depth score (30 points). -/
def scoreB2pullback (pullback : ℚ) : ℕ :=
  if pullback ≤ 30 then 30
  else if pullback ≤ 50 then 25
  else if pullback ≤ 70 then 15
  else 5

/-- 二买 item 2: shrinking-volume score (20 points, less volume is better). -/
def scoreB2vol (vr : ℚ) : ℕ :=
  if vr < 7 / 10 then 20
  else if vr < 1 then 15
  else if vr < 13 / 10 then 10
  else 0

/-- 二买 item 3: pattern score (30 points). -/
def scoreB2pattern (is_standard has_fractal : Bool) : ℕ :=
  if is_standard then 30
  else if has_fractal then 20
  else 0

/-- 二买 item 4: risk/reward score (10 points) from the stop-loss distance. -/
def scoreB2risk (current_price : ℚ) (stop_loss_price : Option ℚ) : ℕ :=
  let stop_loss := stop_loss_price.getD (current_price * (95 / 100))
  if current_price > 0 then
    let risk_pct := (current_price - stop_loss) / current_price * 100
    if risk_pct < 3 then 10
    else if risk_pct < 5 then 6
    else 0
  else 0

/-- 三买 item 1: breakout-magnitude score (30 points, peaked at 3-8%). -/
def scoreB3breakout (breakout : ℚ) : ℕ :=
  if 3 ≤ breakout ∧ breakout ≤ 8 then 30
  else if 8 ≤ breakout ∧ breakout ≤ 12 then 25
  else if 12 ≤ breakout ∧ breakout ≤ 15 then 15
  else 5

/-- 三买 item 2: expanding-volume score (20 points, more volume is better). -/
def scoreB3vol (vr : ℚ) : ℕ :=
  if vr > 2 then 20
  else if vr > 3 / 2 then 15
  else if vr > 1 then 10
  else 0

/-- 三买 item 3: pattern score (30 or 15 points). -/
def scoreB3pattern (is_standard : Bool) : ℕ :=
  if is_standard then 30 else 15

/-- 三买 item 4: distance-to-historical-high score (10 points). -/
def scoreB3distance (distance : ℚ) : ℕ :=
  if distance > 30 then 10
  else if distance > 15 then 5
  else 0

/-- Items 5 of both buy branches: market-environment score (10 points;
any string other than `'bull'`/`'neutral'` falls into the 0-point branch). -/
def scoreBuyTrend : Trend → ℕ
  | .bull => 10
  | .neutral => 5
  | .bear => 0

/-- Item 6 of both buy branches: sub-level confirmation bonus (+5). -/
def scoreBuySublevel (confirm : Bool) : ℕ :=
  if confirm then 5 else 0

/-- The grade / action / probability bands at the end of `score_buy_signal`
(`≥80` A, `≥60` B, `≥45` C, `≥30` D, else E). -/
def buyGradeOf (score : ℕ) : Grade × String × ℚ :=
  if score ≥ 80 then (Grade.A, "强烈推荐-重仓买入", 75 / 100)
  else if score ≥ 60 then (Grade.B, "推荐-适量买入", 60 / 100)
  else if score ≥ 45 then (Grade.C, "谨慎-小仓位试探", 45 / 100)
  else if score ≥ 30 then (Grade.D, "观望-等待确认", 30 / 100)
  else (Grade.E, "放弃-风险过高", 18 / 100)

/-- `score_buy_signal(context, signal_type='三买')`. -/
def score_buy_signal (context : BuyCtx) (signal_type : BuySigType := .buy3) :
    SignalScore :=
  let score :=
    match signal_type with
    | .buy2 =>
        scoreB2pullback context.pullback_depth +
        scoreB2vol (volRatio context.current_vol context.ma20_vol) +
        scoreB2pattern context.is_standard_pattern context.has_bottom_fractal +
        scoreB2risk context.current_price context.stop_loss_price +
        scoreBuyTrend context.market_trend +
        scoreBuySublevel context.sublevel_confirm
    | .buy3 =>
        scoreB3breakout context.breakout_pct +
        scoreB3vol (volRatio context.current_vol context.ma20_vol) +
        scoreB3pattern context.is_standard_pattern +
        scoreB3distance context.distance_to_max +
        scoreBuyTrend context.market_trend +
        scoreBuySublevel context.sublevel_confirm
  let g := buyGradeOf score
  ⟨score, g.1, g.2.1, g.2.2⟩

/-- Context dictionary for `score_sell_signal`. -/
structure SellCtx where
  breakout_pct : ℚ := 0
  rebound_pct : ℚ := 0
  current_vol : ℚ := 0
  ma20_vol : ℚ := 1
  market_trend : Trend := .neutral
  sublevel_confirm : Bool := false
  deriving Repr, DecidableEq

/-- Sell item 1: breakdown-magnitude score (takes `abs`, 30 points). -/
def scoreSellBreak (breakout_pct : ℚ) : ℕ :=
  let breakout := |breakout_pct|
  if breakout > 5 then 30
  else if breakout > 3 then 25
  else if breakout > 3 / 2 then 15
  else 8

/-- Sell item 2: rebound-weakness score (25 points, weaker is better). -/
def scoreSellRebound (rebound : ℚ) : ℕ :=
  if rebound < 1 then 25
  else if rebound < 2 then 20
  else if rebound < 5 then 10
  else 0

/-- Sell item 3: volume score (20 points). -/
def scoreSellVol (vr : ℚ) : ℕ :=
  if vr > 3 / 2 then 20
  else if vr > 1 then 12
  else 0

/-- Sell item 4: market-environment score (bear is the good case, 15 points). -/
def scoreSellTrend : Trend → ℕ
  | .bear => 15
  | .neutral => 8
  | .bull => 0

/-- Sell item 5: sub-level confirmation (10 points). -/
def scoreSellSublevel (confirm : Bool) : ℕ :=
  if confirm then 10 else 0

/-- The grade bands at the end of `score_sell_signal`. -/
def sellGradeOf (score : ℕ) : Grade × String × ℚ :=
  if score ≥ 80 then (Grade.A, "强烈推荐-立即卖出", 75 / 100)
  else if score ≥ 60 then (Grade.B, "推荐-减仓", 62 / 100)
  else if score ≥ 45 then (Grade.C, "谨慎-部分减仓", 48 / 100)
  else if score ≥ 30 then (Grade.D, "观望-设置止损", 35 / 100)
  else (Grade.E, "持仓-可能假突破", 22 / 100)

/-- `score_sell_signal(context)`. -/
def score_sell_signal (context : SellCtx) : SignalScore :=
  let score :=
    scoreSellBreak context.breakout_pct +
    scoreSellRebound context.rebound_pct +
    scoreSellVol (volRatio context.current_vol context.ma20_vol) +
    scoreSellTrend context.market_trend +
    scoreSellSublevel context.sublevel_confirm
  let g := sellGradeOf score
  ⟨score, g.1, g.2.1, g.2.2⟩

/-! ## Central zone, divergence and sell checks (app.py 694-835) -/

/-- The `{low, high}` dictionary returned by `calculate_zhongshu`. -/
structure Zone where
  low : ℚ
  high : ℚ
  deriving Repr, DecidableEq

instance : Inhabited Stroke := ⟨⟨SDir.up, 0, 0⟩⟩

/-- Divergence kind (`'底背驰'` bottom / `'顶背驰'` top). -/
inductive DivType where
  | bottomDiv
  | topDiv
  deriving Repr, DecidableEq

/-- Result dictionary of `check_divergence` (the `'中'` strength and the
explanation string carry no extra information and are not modelled). -/
structure DivRes where
  has_divergence : Bool
  divergence_type : Option DivType
  deriving Repr, DecidableEq

/-- `check_divergence(df, strokes, zhongshu)`; the only field of `df` it
reads is `df.iloc[-1]['close']`, passed here as `current_price`.  The bottom
check runs first and the top check may overwrite its result, as in the
source's sequential mutation of the result dictionary. -/
def check_divergence (current_price : ℚ) (strokes : List Stroke)
    (zhongshu : Zone) : DivRes :=
  if strokes.length < 2 then ⟨false, none⟩
  else
    let r0 : DivRes := ⟨false, none⟩
    let down_strokes := strokes.filter (fun s => s.dir = SDir.down)
    let r1 :=
      if 2 ≤ down_strokes.length then
        let last_down := down_strokes.getD (down_strokes.length - 1) default
        let prev_down := down_strokes.getD (down_strokes.length - 2) default
        let price_new_low := last_down.endP < prev_down.endP
        let current_price_drop := |last_down.endP - last_down.startP|
        let prev_price_drop := |prev_down.endP - prev_down.startP|
        if price_new_low ∧ current_price_drop > prev_price_drop * (8 / 10) then
          if current_price < zhongshu.low then
            (⟨true, some DivType.bottomDiv⟩ : DivRes)
          else r0
        else r0
      else r0
    let up_strokes := strokes.filter (fun s => s.dir = SDir.up)
    if 2 ≤ up_strokes.length then
      let last_up := up_strokes.getD (up_strokes.length - 1) default
      let prev_up := up_strokes.getD (up_strokes.length - 2) default
      let price_new_high := last_up.endP > prev_up.endP
      let current_price_rise := last_up.endP - last_up.startP
      let prev_price_rise := prev_up.endP - prev_up.startP
      if price_new_high ∧ current_price_rise < prev_price_rise * (12 / 10) then
        if current_price > zhongshu.high then ⟨true, some DivType.topDiv⟩
        else r1
      else r1
    else r1

/-- Sell-signal kind (`'三卖'` / `'二卖'`). -/
inductive SellT where
  | sell3
  | sell2
  deriving Repr, DecidableEq

/-- Result dictionary of `check_sell_signals` (explanation string dropped). -/
structure SellRes where
  has_sell_signal : Bool
  sell_type : Option SellT
  deriving Repr, DecidableEq

/-- `check_sell_signals(df, strokes, zhongshu)`; again only
`df.iloc[-1]['close']` is read from the frame.  The 三卖 (third-sell) check
runs first; the 二卖 (second-sell) check is a second plain `if` on the same
result dictionary, but its stroke-pattern guard is disjoint from the first's. -/
def check_sell_signals (current_price : ℚ) (strokes : List Stroke)
    (zhongshu : Zone) : SellRes :=
  if strokes.length < 3 then ⟨false, none⟩
  else
    let r0 : SellRes := ⟨false, none⟩
    let recent := strokes.drop (strokes.length - 3)
    let r1 :=
      if (recent.getD 0 default).dir = SDir.down ∧
          (recent.getD 1 default).dir = SDir.up ∧
          (recent.getD 2 default).dir = SDir.down then
        let rebound_high := (recent.getD 1 default).endP
        if rebound_high < zhongshu.low ∧ current_price < rebound_high then
          (⟨true, some SellT.sell3⟩ : SellRes)
        else r0
      else r0
    if (recent.getD 0 default).dir = SDir.up ∧
        (recent.getD 1 default).dir = SDir.down then
      let up_high := (recent.getD 0 default).endP
      let down_low := (recent.getD 1 default).endP
      if up_high > zhongshu.high ∧ down_low < zhongshu.high ∧
          down_low > zhongshu.low then
        if current_price < zhongshu.high then ⟨true, some SellT.sell2⟩
        else r1
      else r1
    else r1

/-! ## The signal classifier of `analyze_stock` (app.py 898-1127)

One analysis state: the columns of the frame as `analyze_stock` holds it when
the classification cascade starts (`close`/`high`/`low` are always present
there; `volume` and `macd_hist` are looked up guardedly with
`'…' in df.columns`, hence `Option`), the stroke list, and the zone.
`max_price`/`min_price` are recomputed from the columns as the source does
from the same frame. -/

/-- Analysis state feeding the classification cascade. -/
structure CState where
  closeCol : List ℚ
  highCol : List ℚ
  lowCol : List ℚ
  volumeCol : Option (List ℚ)
  macdHistCol : Option (List ℚ)
  strokes : List Stroke
  zhongshu : Zone
  deriving Repr, DecidableEq

/-- `df.iloc[-1]['close']` (the frame is non-empty on every path reaching the
classifier; the default is never consulted there). -/
def currentPrice (s : CState) : ℚ :=
  s.closeCol.getLast?.getD 0

/-- `series.max()` over a non-empty column. -/
def maxQ : List ℚ → ℚ
  | [] => 0
  | x :: xs => xs.foldl max x

/-- `series.min()` over a non-empty column. -/
def minQ : List ℚ → ℚ
  | [] => 0
  | x :: xs => xs.foldl min x

/-- The (high, low, close) rows handed to `get_dynamic_threshold`. -/
def hlcOf (s : CState) : List HLC :=
  List.zipWith (fun (hl : ℚ × ℚ) (c : ℚ) => ⟨hl.1, hl.2, c⟩)
    (List.zip s.highCol s.lowCol) s.closeCol

/-- The signal strings `analyze_stock` can assign, by branch identity. -/
inductive SigTag where
  | sell3Scored (g : Grade)  -- "三卖(评分:…)"
  | sell2                    -- "二卖"
  | breakObserve             -- "突破后观察"
  | breakInsufficient        -- "突破不足"
  | buy3Div (g : Grade)      -- "三买+背驰(评分:…)"
  | buy3Scored (g : Grade)   -- "三买(评分:…)"
  | strongBuy2               -- "强力二买" (dead code, see the 二买 branch)
  | standardBuy2             -- "标准二买" (dead code, see the 二买 branch)
  | buy1Div                  -- "一买+背驰"
  | buy1                     -- "一买"
  | noSig                    -- "无"
  deriving Repr, DecidableEq

/-- The `action` strings. -/
inductive ActTag where
  | buy      -- "买入"
  | sell     -- "卖出"
  | reduce   -- "减仓"
  | watch    -- "观望"
  | attend   -- "关注"
  deriving Repr, DecidableEq

/-- The `risk_level` strings. -/
inductive RiskTag where
  | low   -- "低"
  | mid   -- "中"
  | high  -- "高"
  deriving Repr, DecidableEq

/-- The classification outcome (signal / action / risk level; the price
targets, stop losses and suggestion strings carry no extra branch
information and are not modelled). -/
structure SigResult where
  signal : SigTag
  action : ActTag
  risk : RiskTag
  deriving Repr, DecidableEq

/-- The initialisation `signal = "无"; action = "观望"; risk_level = "中"`. -/
def noSigResult : SigResult := ⟨SigTag.noSig, ActTag.watch, RiskTag.mid⟩

/-- Branch 1 body (sell signal fired): score the sell context and grade the
三卖 signal, or pass a 二卖 through. -/
def sellBranch (s : CState) : SigResult :=
  let cp := currentPrice s
  let sell := check_sell_signals cp s.strokes s.zhongshu
  let breakout_pct :=
    if cp < s.zhongshu.low then |(cp - s.zhongshu.low) / s.zhongshu.low * 100|
    else 0
  let current_vol := match s.volumeCol with
    | some v => v.getLast?.getD 0
    | none => 0
  let ma20_vol0 : ℚ := match s.volumeCol with
    | some v => v.getLast?.getD 0
    | none => 1
  let ma20_vol := if ma20_vol0 = 0 then 1 else ma20_vol0
  let signal_score := score_sell_signal
    { breakout_pct := breakout_pct, rebound_pct := 0, current_vol := current_vol,
      ma20_vol := ma20_vol, market_trend := Trend.neutral }
  match sell.sell_type with
  | some SellT.sell3 =>
      if signal_score.grade = Grade.A ∨ signal_score.grade = Grade.B then
        ⟨SigTag.sell3Scored signal_score.grade, ActTag.sell, RiskTag.high⟩
      else
        ⟨SigTag.sell3Scored signal_score.grade, ActTag.reduce, RiskTag.mid⟩
  | _ => ⟨SigTag.sell2, ActTag.reduce, RiskTag.mid⟩

/-- Branch 2 body (price above the zone with strokes): dynamic-threshold
validation, scoring, top-divergence override. -/
def buy3Branch (s : CState) (divergence : DivRes) : SigResult :=
  let cp := currentPrice s
  let recent_up := s.strokes.filter (fun st => st.dir = SDir.up)
  if !recent_up.isEmpty &&
      (recent_up.getLast?.getD default).endP > s.zhongshu.high then
    let breakout_pct := (cp - s.zhongshu.high) / s.zhongshu.high * 100
    let max_price := maxQ s.highCol
    let distance_to_max :=
      if max_price > 0 then (max_price - cp) / max_price * 100 else 0
    let threshold := get_dynamic_threshold (hlcOf s)
    let valid := is_valid_breakout breakout_pct threshold BreakSigType.buy3
    if !valid.1 then
      if breakout_pct ≥ threshold.buy3_max then
        ⟨SigTag.breakObserve, ActTag.watch, RiskTag.high⟩
      else
        ⟨SigTag.breakInsufficient, ActTag.watch, RiskTag.mid⟩
    else
      let current_vol := match s.volumeCol with
        | some v => v.getLast?.getD 0
        | none => 0
      -- `df['volume'].rolling(20).mean().iloc[-1]`: NaN (below 20 rows) and 0
      -- are both replaced by 1 through the `pd.isna` / `== 0` fix-up.
      let ma20_vol0 : Option ℚ := match s.volumeCol with
        | some v =>
            if v.length ≥ 20 then some ((v.drop (v.length - 20)).sum / 20)
            else none
        | none => some 1
      let ma20_vol := match ma20_vol0 with
        | none => 1
        | some m => if m = 0 then 1 else m
      let signal_score := score_buy_signal
        { breakout_pct := breakout_pct, current_vol := current_vol,
          ma20_vol := ma20_vol, market_trend := Trend.neutral,
          distance_to_max := distance_to_max } BuySigType.buy3
      if divergence.has_divergence &&
          divergence.divergence_type = some DivType.topDiv then
        ⟨SigTag.buy3Div signal_score.grade, ActTag.reduce, RiskTag.high⟩
      else if signal_score.grade = Grade.A ∨ signal_score.grade = Grade.B then
        ⟨SigTag.buy3Scored signal_score.grade, ActTag.buy,
          if signal_score.grade = Grade.A then RiskTag.low else RiskTag.mid⟩
      else
        ⟨SigTag.buy3Scored signal_score.grade,
          if signal_score.grade = Grade.D then ActTag.watch else ActTag.attend,
          RiskTag.high⟩
  else noSigResult

/-- Branch 4 body (price below the zone with strokes): first-buy with or
without bottom divergence. -/
def buy1Branch (s : CState) (divergence : DivRes) : SigResult :=
  let cp := currentPrice s
  let recent_down := s.strokes.filter (fun st => st.dir = SDir.down)
  if !recent_down.isEmpty then
    let recent_low := (recent_down.getLast?.getD default).endP
    let rebound_pct := (cp - recent_low) / recent_low * 100
    let has_divergence := divergence.has_divergence &&
      divergence.divergence_type = some DivType.bottomDiv
    if rebound_pct > 1 || has_divergence then
      if has_divergence then ⟨SigTag.buy1Div, ActTag.buy, RiskTag.mid⟩
      else ⟨SigTag.buy1, ActTag.attend, RiskTag.high⟩
    else noSigResult
  else noSigResult

/-- Guard of branch 1: `sell_signal['has_sell_signal']`. -/
def sellGuard (s : CState) : Bool :=
  (check_sell_signals (currentPrice s) s.strokes s.zhongshu).has_sell_signal

/-- Guard of branch 2: `current_price > zhongshu['high'] and strokes`. -/
def buy3Guard (s : CState) : Bool :=
  currentPrice s > s.zhongshu.high && !s.strokes.isEmpty

/-- Guard of branch 3: `strokes and len(strokes) >= 3 and len(df) >= 5`. -/
def buy2Guard (s : CState) : Bool :=
  !s.strokes.isEmpty && s.strokes.length ≥ 3 && s.closeCol.length ≥ 5

/-- The down→up→down test on the last three strokes inside branch 3. -/
def buy2Pattern (s : CState) : Bool :=
  let recent := s.strokes.drop (s.strokes.length - 3)
  (recent.getD 0 default).dir = SDir.down &&
  (recent.getD 1 default).dir = SDir.up &&
  (recent.getD 2 default).dir = SDir.down

/-- Guard of branch 4: `current_price < zhongshu['low'] and strokes`. -/
def buy1Guard (s : CState) : Bool :=
  currentPrice s < s.zhongshu.low && !s.strokes.isEmpty

/-- The classification cascade of `analyze_stock` (the `if/elif` chain after
the indicators are computed).  In branch 3 the source immediately evaluates
`recent_strokes[0]['end_idx']` once the down→up→down pattern matches, but the
stroke dictionaries built by `find_strokes` only carry `type`/`start`/`end`,
so that access raises `KeyError('end_idx')`. -/
def classifySignal (s : CState) : Except PyError SigResult :=
  let divergence := check_divergence (currentPrice s) s.strokes s.zhongshu
  if sellGuard s then Except.ok (sellBranch s)
  else if buy3Guard s then Except.ok (buy3Branch s divergence)
  else if buy2Guard s then
    if buy2Pattern s then Except.error (PyError.keyError "end_idx")
    else Except.ok noSigResult
  else if buy1Guard s then Except.ok (buy1Branch s divergence)
  else Except.ok noSigResult

/-! ## Row-level frame model

For the stages where column presence and in-place column addition matter
(`calculate_zhongshu`, `calculate_macd`, and the body of `analyze_stock`),
a frame is a list of rows, each row an association list column-name → value.
`rowSet` is the pandas `df[col] = series` semantics on one row: overwrite an
existing column in place, otherwise append it as the last column. -/

/-- One frame row: (column name, value) pairs. -/
abbrev Row := List (String × ℚ)

/-- A frame as a list of rows. -/
abbrev DFrame := List Row

/-- Set column `k` of a row to `v`: replace in place if present, else append. -/
def rowSet (r : Row) (k : String) (v : ℚ) : Row :=
  if r.any (fun p => p.1 = k) then
    r.map (fun p => if p.1 = k then (k, v) else p)
  else r ++ [(k, v)]

/-- Read a single cell; a missing column raises `KeyError` as in pandas. -/
def getCell (r : Row) (k : String) : Except PyError ℚ :=
  match r.lookup k with
  | some v => Except.ok v
  | none => Except.error (PyError.keyError k)

/-- Read a whole column (pandas columns are uniform across rows; a missing
column raises `KeyError`). -/
def getColE (df : DFrame) (k : String) : Except PyError (List ℚ) :=
  if df.all (fun r => (r.lookup k).isSome) then
    Except.ok (df.map fun r => (r.lookup k).getD 0)
  else Except.error (PyError.keyError k)

/-- Write one column into every row (`df[k] = series`). -/
def setColumn (df : DFrame) (k : String) (vals : List ℚ) : DFrame :=
  List.zipWith (fun r v => rowSet r k v) df vals

/-- Insertion step for sorting rationals. -/
def insertSorted (x : ℚ) : List ℚ → List ℚ
  | [] => [x]
  | y :: ys => if x ≤ y then x :: y :: ys else y :: insertSorted x ys

/-- Ascending sort of a rational list. -/
def sortQ (l : List ℚ) : List ℚ :=
  l.foldr insertSorted []

/-- `Series.quantile(q)` with pandas' default linear interpolation: position
`q * (n-1)` in the sorted values, linearly interpolated between the two
neighbouring order statistics (NaN on an empty series; 0 stands in here,
never consulted by the claims). -/
def quantile (xs : List ℚ) (q : ℚ) : ℚ :=
  let s := sortQ xs
  let n := s.length
  if n = 0 then 0
  else
    let pos := q * (n - 1 : ℕ)
    let i := ⌊pos⌋₊
    let frac := pos - (i : ℚ)
    let a := s.getD i 0
    let b := s.getD (min (i + 1) (n - 1)) 0
    a + (b - a) * frac

/-- `calculate_zhongshu(df)` (app.py 694-700): writes the `mid` column
`(high + low) / 2` **into the caller's frame** (`df['mid'] = …` on the
argument, no copy), then returns the 40%/60% quantile zone.  The first
component is the frame as the caller sees it after the call. -/
def calculate_zhongshu (df : DFrame) : DFrame × Zone :=
  let mid := fun (r : Row) =>
    ((r.lookup "high").getD 0 + (r.lookup "low").getD 0) / 2
  let mids := df.map mid
  (df.map (fun r => rowSet r "mid" (mid r)),
   ⟨quantile mids (40 / 100), quantile mids (60 / 100)⟩)

/-- `ewm(span, adjust=False).mean()` after the first value:
`e' = α·x + (1-α)·e`. -/
def ewmAux (α : ℚ) (e : ℚ) : List ℚ → List ℚ
  | [] => []
  | x :: xs =>
      let e' := α * x + (1 - α) * e
      e' :: ewmAux α e' xs

/-- `ewm(span, adjust=False).mean()`: the first output equals the first
input, then the exponential recurrence with `α = 2 / (span + 1)`. -/
def ewm (α : ℚ) : List ℚ → List ℚ
  | [] => []
  | x :: xs => x :: ewmAux α x xs

/-- `calculate_macd(df, 12, 26, 9)` (app.py 702-710): works on a copy of the
frame, adds the five indicator columns, returns the copy. -/
def calculate_macd (df : DFrame) : Except PyError DFrame := do
  let closes ← getColE df "close"
  let ema_fast := ewm (2 / 13) closes
  let ema_slow := ewm (2 / 27) closes
  let macd := List.zipWith (fun a b => a - b) ema_fast ema_slow
  let macd_signal := ewm (1 / 5) macd
  let macd_hist := List.zipWith (fun a b => a - b) macd macd_signal
  pure (setColumn
    (setColumn
      (setColumn
        (setColumn
          (setColumn df "ema_fast" ema_fast)
          "ema_slow" ema_slow)
        "macd" macd)
      "macd_signal" macd_signal)
    "macd_hist" macd_hist)

/-! ## `analyze_stock` (app.py 838-1149)

The network fetch `pro.daily(...)` is external: its outcome (`None` or a
frame) is the function's input here.  Everything after the fetch is
transcribed; the final dictionary keeps the numeric/tag fields (the display
strings are dropped).  The enclosing `try/except Exception: return None`
maps any raised `PyError` to `none`. -/

/-- `trade_date → date`, `vol → volume`; the other renames are identities. -/
def renameKey (k : String) : String :=
  if k = "trade_date" then "date"
  else if k = "vol" then "volume"
  else k

/-- Insertion step for sorting rows by their `trade_date` cell. -/
def insertRowByDate (x : Row) : List Row → List Row
  | [] => [x]
  | y :: ys =>
      if (x.lookup "trade_date").getD 0 ≤ (y.lookup "trade_date").getD 0 then
        x :: y :: ys
      else y :: insertRowByDate x ys

/-- `df.sort_values('trade_date')`: `KeyError` when the column is absent,
otherwise an ascending sort on it (dates here are numbers, e.g. 20260101). -/
def sortByDate (df : DFrame) : Except PyError DFrame :=
  if df.all (fun r => (r.lookup "trade_date").isSome) then
    Except.ok (df.foldr insertRowByDate [])
  else Except.error (PyError.keyError "trade_date")

/-- `l[-n:]` — the last `n` elements. -/
def lastN {α : Type} (n : ℕ) (l : List α) : List α :=
  l.drop (l.length - n)

/-- Rows → typed bars for the candle-merging / stroke stages (which read only
the four price columns; `KeyError` when one is absent). -/
def toBars (df : DFrame) : Except PyError (List Bar) := do
  let opens ← getColE df "open"
  let highs ← getColE df "high"
  let lows ← getColE df "low"
  let closes ← getColE df "close"
  pure (List.zipWith (fun (oh : ℚ × ℚ) (lc : ℚ × ℚ) =>
    ⟨oh.1, oh.2, lc.1, lc.2⟩) (List.zip opens highs) (List.zip lows closes))

/-- The result dictionary of `analyze_stock` (numeric and tag fields). -/
structure AnalysisResult where
  price : ℚ
  change : ℚ
  max_price : ℚ
  min_price : ℚ
  ding_count : ℕ
  di_count : ℕ
  stroke_count : ℕ
  zhongshu_low : ℚ
  zhongshu_high : ℚ
  outcome : SigResult
  deriving Repr, DecidableEq

/-- The `try` body of `analyze_stock`: `.ok none` is the plain
insufficient-data outcome, `.error` a raised exception. -/
def analyzeBody (fetched : Option DFrame) : Except PyError (Option AnalysisResult) :=
  match fetched with
  | none => Except.ok none
  | some df0 =>
      if df0.length < 20 then Except.ok none
      else do
        let df1 ← sortByDate df0
        let df2 := df1.map (fun r => r.map (fun p => (renameKey p.1, p.2)))
        let df3 := lastN 90 df2
        let lastRow := df3.getLast?.getD []
        let current_price ← getCell lastRow "close"
        let current_chg ← getCell lastRow "pct_chg"
        let highs ← getColE df3 "high"
        let max_price := maxQ highs
        let lows ← getColE df3 "low"
        let min_price := minQ lows
        let bars ← toBars df3
        let df_processed := handle_inclusion bars
        let fs := find_strokes df_processed
        let strokes := fs.1
        let zres := calculate_zhongshu df3
        let zhongshu := zres.2
        let df4 ← calculate_macd zres.1
        let closes ← getColE df4 "close"
        let volumeCol :=
          if df4.all (fun r => (r.lookup "volume").isSome) then
            some (df4.map fun r => (r.lookup "volume").getD 0)
          else none
        let histCol :=
          if df4.all (fun r => (r.lookup "macd_hist").isSome) then
            some (df4.map fun r => (r.lookup "macd_hist").getD 0)
          else none
        let st : CState :=
          ⟨closes, highs, lows, volumeCol, histCol, strokes, zhongshu⟩
        let outcome ← classifySignal st
        pure (some
          { price := current_price, change := current_chg,
            max_price := max_price, min_price := min_price,
            ding_count := fs.2.1, di_count := fs.2.2,
            stroke_count := strokes.length,
            zhongshu_low := zhongshu.low, zhongshu_high := zhongshu.high,
            outcome := outcome })

/-- `analyze_stock`: the blanket `except Exception: return None` around the
body — every raised exception becomes the same `none` the insufficient-data
path returns. -/
def analyze_stock (fetched : Option DFrame) : Option AnalysisResult :=
  match analyzeBody fetched with
  | Except.ok r => r
  | Except.error _ => none

/-! # Theorems -/

/-! ## C10: analysis history keeps the 20 most recent batches -/

/-- C10: after every call to `save_analysis_history`, the stored history has
at most 20 batch entries, the entry just saved is the last one, and the
stored list is a suffix of (the previous history followed by the new entry),
i.e. exactly the most recently saved batches. -/
theorem save_analysis_history_spec {α : Type} (history : List α) (entry : α) :
    (save_analysis_history history entry).length ≤ 20 ∧
    (save_analysis_history history entry).getLast? = some entry ∧
    ∃ dropped : List α,
      dropped ++ save_analysis_history history entry = history ++ [entry] := by
  have hk : (history ++ [entry]).length - 20 ≤ history.length := by
    simp only [List.length_append, List.length_singleton]
    omega
  refine ⟨?_, ?_, ?_⟩
  · simp only [save_analysis_history, List.length_drop, List.length_append,
      List.length_singleton]
    omega
  · rw [save_analysis_history, List.drop_append_of_le_length hk]
    rw [List.getLast?_append_of_ne_nil _ (by simp)]
    rfl
  · exact ⟨(history ++ [entry]).take ((history ++ [entry]).length - 20),
      List.take_append_drop _ _⟩

/-! ## C5: fractal detection -/

/-- C5: for `2 ≤ i < len`, the middle bar `i-1` is a top fractal iff its high
and its low both exceed those of both neighbours; a bottom fractal iff the
symmetric condition with lows/highs reversed holds; and never both at once. -/
theorem fractal_detection_spec (df : List Bar) (i : ℕ)
    (h2 : 2 ≤ i) (hlen : i < df.length) :
    (is_top_fractal df i = true ↔
      ((df.getD (i - 1) default).high > (df.getD (i - 2) default).high ∧
       (df.getD (i - 1) default).high > (df.getD i default).high ∧
       (df.getD (i - 1) default).low > (df.getD (i - 2) default).low ∧
       (df.getD (i - 1) default).low > (df.getD i default).low)) ∧
    (is_bottom_fractal df i = true ↔
      ((df.getD (i - 1) default).low < (df.getD (i - 2) default).low ∧
       (df.getD (i - 1) default).low < (df.getD i default).low ∧
       (df.getD (i - 1) default).high < (df.getD (i - 2) default).high ∧
       (df.getD (i - 1) default).high < (df.getD i default).high)) ∧
    ¬(is_top_fractal df i = true ∧ is_bottom_fractal df i = true) := by
  have ha : ¬ i < 2 := by omega
  have hb : ¬ i ≥ df.length := by omega
  have htop : is_top_fractal df i = true ↔
      ((df.getD (i - 1) default).high > (df.getD (i - 2) default).high ∧
       (df.getD (i - 1) default).high > (df.getD i default).high ∧
       (df.getD (i - 1) default).low > (df.getD (i - 2) default).low ∧
       (df.getD (i - 1) default).low > (df.getD i default).low) := by
    simp [is_top_fractal, ha, hb, and_assoc]
  have hbot : is_bottom_fractal df i = true ↔
      ((df.getD (i - 1) default).low < (df.getD (i - 2) default).low ∧
       (df.getD (i - 1) default).low < (df.getD i default).low ∧
       (df.getD (i - 1) default).high < (df.getD (i - 2) default).high ∧
       (df.getD (i - 1) default).high < (df.getD i default).high) := by
    simp [is_bottom_fractal, ha, hb, and_assoc]
  refine ⟨htop, hbot, fun hcon => ?_⟩
  have hx := (htop.mp hcon.1).1
  have hy := (hbot.mp hcon.2).2.2.1
  exact absurd hx (not_lt.2 hy.le)

/-- A three-bar frame whose middle bar is a top fractal. -/
def fractalWitnessBars : List Bar :=
  [⟨0, 1, 0, 0⟩, ⟨0, 3, 2, 0⟩, ⟨0, 1, 1, 0⟩]

/-- Witness for C5 at a concrete triple. -/
theorem fractal_detection_spec_witness :
    2 ≤ 2 ∧ 2 < fractalWitnessBars.length ∧
    ¬(is_top_fractal fractalWitnessBars 2 = true ∧
      is_bottom_fractal fractalWitnessBars 2 = true) :=
  ⟨by decide, by decide,
    (fractal_detection_spec fractalWitnessBars 2 (by decide) (by decide)).2.2⟩

/-! ## C9: `calculate_zhongshu` mutates its argument frame -/

/-- A two-column frame without a `mid` column. -/
def zhongshuDf : DFrame := [[("high", 10), ("low", 8)]]

/-- C9 counterexample: `calculate_zhongshu` does **not** leave its input
frame unchanged — it adds the derived `mid` column in place (here the frame
gains the column `mid = 9`). -/
theorem calculate_zhongshu_mutates :
    (calculate_zhongshu zhongshuDf).1 ≠ zhongshuDf ∧
    ((calculate_zhongshu zhongshuDf).1.getD 0 []).lookup "mid" =
      some (((10 : ℚ) + 8) / 2) ∧
    ((10 : ℚ) + 8) / 2 = 9 :=
  ⟨by decide, by rfl, by norm_num⟩

/-- Overwriting key `k'` throughout a row preserves the lookup of any other
key `k`. -/
theorem lookup_map_setKey (k k' : String) (v : ℚ) (h : k ≠ k') (r : Row) :
    (r.map (fun p => if p.1 = k' then (k', v) else p)).lookup k = r.lookup k := by
  have hbeq : (k == k') = false := by
    cases hb : (k == k')
    · rfl
    · exact absurd (eq_of_beq hb) h
  induction r with
  | nil => rfl
  | cons p t ih =>
      obtain ⟨a, b⟩ := p
      by_cases hp : a = k'
      · subst hp
        simp [List.lookup_cons, hbeq, ih]
      · simp only [List.map_cons, if_neg hp, List.lookup_cons]
        cases hka : (k == a) <;> simp [ih]

/-- `rowSet` at key `k'` leaves every other column `k` unchanged. -/
theorem lookup_rowSet_ne (k k' : String) (v : ℚ) (h : k ≠ k') :
    ∀ r : Row, (rowSet r k' v).lookup k = r.lookup k := by
  have hbeq : (k == k') = false := by
    cases hb : (k == k')
    · rfl
    · exact absurd (eq_of_beq hb) h
  intro r
  unfold rowSet
  split
  · exact lookup_map_setKey k k' v h r
  · rw [List.lookup_append]
    have h1 : (([(k', v)] : Row).lookup k) = none := by
      simp [List.lookup_cons, hbeq]
    rw [h1, Option.or_none]

/-- C9 amended: `calculate_zhongshu` adds the `mid` column to its argument in
place; the frame keeps its length and, row by row, every column other than
`mid` keeps its value. -/
theorem calculate_zhongshu_preserves (df : DFrame) (k : String)
    (hk : k ≠ "mid") :
    (calculate_zhongshu df).1.length = df.length ∧
    List.Forall₂ (fun r r' : Row => r'.lookup k = r.lookup k)
      df (calculate_zhongshu df).1 := by
  refine ⟨by simp [calculate_zhongshu], ?_⟩
  simp only [calculate_zhongshu]
  induction df with
  | nil => exact List.Forall₂.nil
  | cons r t ih =>
      exact List.Forall₂.cons (lookup_rowSet_ne k "mid" _ hk r) ih

/-- Witness for C9 (amended) at the concrete frame. -/
theorem calculate_zhongshu_preserves_witness :
    "high" ≠ "mid" ∧
    ((calculate_zhongshu zhongshuDf).1.length = zhongshuDf.length ∧
     List.Forall₂ (fun r r' : Row => r'.lookup "high" = r.lookup "high")
       zhongshuDf (calculate_zhongshu zhongshuDf).1) :=
  ⟨by decide, calculate_zhongshu_preserves zhongshuDf "high" (by decide)⟩

/-! ## C6: the threshold engine -/

/-- 20 identical bars whose ATR / mean-close ratio is exactly 2.5%. -/
def volDf : List HLC := List.replicate 20 ⟨205 / 2, 100, 100⟩

/-- C6 counterexample: at a volatility ratio of exactly 2.5% the engine
returns the **low** bucket (the `> 0.025` test is strict), while the claimed
bucketing `low (<2.5%), medium (2.5-4%)` places 2.5% in the medium bucket. -/
theorem threshold_bucket_counterexample :
    volatilityOf volDf = 25 / 1000 ∧
    (get_dynamic_threshold volDf).volatility_level = VLevel.low ∧
    VLevel.low ≠ VLevel.medium := by
  have h1 : volatilityOf volDf = 25 / 1000 := by
    norm_num [volDf, volatilityOf, calculate_atr, trueRanges, listMean,
      List.replicate, abs_of_nonneg, max_self]
  refine ⟨h1, ?_, by decide⟩
  rw [get_dynamic_threshold, h1]
  norm_num [thresholdOfVolatility]

/-- C6 (amended): the engine buckets the volatility ratio with a *non-strict*
low boundary — low (≤2.5%), medium (>2.5% and ≤4%), high (>4%); the
`breakout_max` tolerance (`三买_max`) is monotonically non-decreasing in the
volatility ratio; and a third-buy breakout percentage below `三买_min` is
rejected with the "insufficient" reason while one above `三买_max` is
rejected with the "chase risk" reason. -/
theorem threshold_engine_spec :
    (∀ df : List HLC,
      ((get_dynamic_threshold df).volatility_level = VLevel.high ↔
        volatilityOf df > 4 / 100) ∧
      ((get_dynamic_threshold df).volatility_level = VLevel.medium ↔
        (volatilityOf df > 25 / 1000 ∧ volatilityOf df ≤ 4 / 100)) ∧
      ((get_dynamic_threshold df).volatility_level = VLevel.low ↔
        volatilityOf df ≤ 25 / 1000)) ∧
    (∀ v w : ℚ, v ≤ w →
      (thresholdOfVolatility v).buy3_max ≤ (thresholdOfVolatility w).buy3_max) ∧
    (∀ b v : ℚ,
      (b < (thresholdOfVolatility v).buy3_min →
        is_valid_breakout b (thresholdOfVolatility v) BreakSigType.buy3 =
          (false, BreakReason.insufficient)) ∧
      (b > (thresholdOfVolatility v).buy3_max →
        is_valid_breakout b (thresholdOfVolatility v) BreakSigType.buy3 =
          (false, BreakReason.chaseRisk))) := by
  refine ⟨?_, ?_, ?_⟩
  · intro df
    unfold get_dynamic_threshold thresholdOfVolatility
    split_ifs with h1 h2 <;> refine ⟨?_, ?_, ?_⟩ <;>
      simp_all <;> try linarith
  · intro v w hvw
    unfold thresholdOfVolatility
    split_ifs <;> norm_num <;> linarith
  · intro b v
    unfold thresholdOfVolatility
    constructor <;> intro hb <;>
      · split_ifs at hb ⊢ <;> unfold is_valid_breakout <;>
          split_ifs <;> first | rfl | (exfalso; simp_all; linarith)

/-- Witness for C6 (amended): a breakout below the minimum of the low bucket
is rejected as insufficient. -/
theorem threshold_engine_spec_witness :
    (0 : ℚ) < (thresholdOfVolatility 0).buy3_min ∧
    is_valid_breakout 0 (thresholdOfVolatility 0) BreakSigType.buy3 =
      (false, BreakReason.insufficient) :=
  ⟨by norm_num [thresholdOfVolatility],
    (threshold_engine_spec.2.2 0 0).1 (by norm_num [thresholdOfVolatility])⟩

/-! ## C3: stroke directions need not alternate -/

/-- Ten bars producing the fractal sequence bottom(2), top(5), bottom(6),
top(8); the bottom at 6 is only one bar after the top at 5, so the builder
resets its start fractal without emitting a stroke, and then emits a second
consecutive up stroke. -/
def altBars : List Bar :=
  [⟨0, 100, 90, 0⟩, ⟨0, 95, 85, 0⟩, ⟨0, 80, 70, 0⟩, ⟨0, 90, 80, 0⟩,
   ⟨0, 100, 85, 0⟩, ⟨0, 120, 100, 0⟩, ⟨0, 105, 90, 0⟩, ⟨0, 110, 95, 0⟩,
   ⟨0, 130, 100, 0⟩, ⟨0, 120, 98, 0⟩]

/-- C3 counterexample: `find_strokes` can emit two consecutive strokes of the
same direction — on `altBars` it emits exactly `[up, up]`, refuting the
strict-alternation claim. -/
theorem stroke_alternation_counterexample :
    (find_strokes altBars).1 = [⟨SDir.up, 70, 120⟩, ⟨SDir.up, 90, 130⟩] ∧
    ¬ List.Chain' (fun a b : Stroke => a.dir ≠ b.dir) (find_strokes altBars).1 := by
  have heq : (find_strokes altBars).1 = [⟨SDir.up, 70, 120⟩, ⟨SDir.up, 90, 130⟩] := by
    decide
  refine ⟨heq, ?_⟩
  rw [heq]
  simp [List.chain'_cons]

/-- Price consistency of an emitted stroke: up strokes strictly rise, down
strokes strictly fall. -/
def strokePriceConsistent (s : Stroke) : Prop :=
  (s.dir = SDir.up → s.startP < s.endP) ∧ (s.dir = SDir.down → s.endP < s.startP)

/-- One builder step preserves price consistency of the accumulated strokes:
a stroke is only ever appended under the strict price guard of its branch. -/
theorem strokeStep_preserves (p : Option Fractal × List Stroke) (f : Fractal)
    (hp : ∀ s ∈ p.2, strokePriceConsistent s) :
    ∀ s ∈ (strokeStep p f).2, strokePriceConsistent s := by
  obtain ⟨st, acc⟩ := p
  cases st with
  | none => exact hp
  | some start =>
      simp only [strokeStep]
      split_ifs with h1 h2 h3 h4 h5 <;> try exact hp
      · intro s hs
        rcases List.mem_append.1 hs with hs | hs
        · exact hp s hs
        · have hse := List.mem_singleton.1 hs
          subst hse
          simp only [Bool.and_eq_true, decide_eq_true_eq] at h3
          constructor
          · intro _
            exact h3.2
          · intro hd
            cases hd
      · intro s hs
        rcases List.mem_append.1 hs with hs | hs
        · exact hp s hs
        · have hse := List.mem_singleton.1 hs
          subst hse
          simp only [Bool.and_eq_true, decide_eq_true_eq] at h4
          constructor
          · intro hd
            cases hd
          · intro _
            exact h4.2

/-- Folding the builder over any fractal list preserves price consistency. -/
theorem foldl_strokeStep_preserves (fs : List Fractal) :
    ∀ p : Option Fractal × List Stroke, (∀ s ∈ p.2, strokePriceConsistent s) →
      ∀ s ∈ (fs.foldl strokeStep p).2, strokePriceConsistent s := by
  induction fs with
  | nil => intro p hp; simpa using hp
  | cons f fs ih =>
      intro p hp
      rw [List.foldl_cons]
      exact ih _ (strokeStep_preserves p f hp)

/-- C3 (amended): stroke directions need **not** alternate (two consecutive
same-direction strokes can be emitted after the start fractal is reset by a
close opposite fractal); what does hold for every emitted stroke is price
consistency — up strokes strictly rise and down strokes strictly fall. -/
theorem find_strokes_price_consistent (df : List Bar) (s : Stroke)
    (hs : s ∈ (find_strokes df).1) : strokePriceConsistent s := by
  unfold find_strokes at hs
  split at hs
  · simp at hs
  · dsimp only at hs
    split at hs
    · simp at hs
    · exact foldl_strokeStep_preserves (scanFractals df) (none, [])
        (by intro t ht; cases ht) s hs

/-- Witness for C3 (amended) at a concrete bar list and stroke. -/
theorem find_strokes_price_consistent_witness :
    (⟨SDir.up, 70, 120⟩ : Stroke) ∈ (find_strokes altBars).1 ∧
    strokePriceConsistent ⟨SDir.up, 70, 120⟩ :=
  ⟨by decide, find_strokes_price_consistent altBars ⟨SDir.up, 70, 120⟩ (by decide)⟩

/-! ## C4: the candle merger

The grouping of the two nested `while` loops is made explicit: the output is
in one-to-one correspondence with a partition of the input into non-empty
contiguous groups, and each output bar's `[low, high]` interval is exactly
the union of its group's intervals. -/

/-- A merged bar covers its source group: its `[low, high]` interval contains
every source interval and both endpoints are attained by some source bar. -/
def coversGroup (b : Bar) (g : List Bar) : Prop :=
  (∀ x ∈ g, x.high ≤ b.high ∧ b.low ≤ x.low) ∧
  (∃ x ∈ g, x.high = b.high) ∧ (∃ x ∈ g, x.low = b.low)

/-- A bar covers the singleton group of itself. -/
theorem coversGroup_self (cur : Bar) : coversGroup cur [cur] := by
  refine ⟨?_, ⟨cur, List.mem_singleton.2 rfl, rfl⟩, ⟨cur, List.mem_singleton.2 rfl, rfl⟩⟩
  intro x hx
  rcases List.mem_singleton.1 hx with rfl
  exact ⟨le_refl _, le_refl _⟩

/-- One outer-loop step of `handle_inclusion`: `hiLoop cur rest` closes a
first merge group `cur :: taken`, emits its merged bar, and recurses on the
remaining suffix. -/
theorem hiLoop_spec (rest : List Bar) : ∀ cur : Bar,
    ∃ (taken rest' : List Bar) (m : Bar),
      rest = taken ++ rest' ∧ rest'.length ≤ rest.length ∧
      hiLoop cur rest = m :: handle_inclusion rest' ∧
      coversGroup m (cur :: taken) := by
  induction rest with
  | nil =>
      intro cur
      exact ⟨[], [], cur, rfl, le_refl _, rfl, coversGroup_self cur⟩
  | cons b bs ih =>
      intro cur
      by_cases hinc : inclusionRel cur b = true
      · obtain ⟨taken', rest', m, hsplit, hlen, heq, hcov⟩ := ih (absorbBar cur b)
        refine ⟨b :: taken', rest', m, by rw [List.cons_append, ← hsplit], ?_, ?_, ?_⟩
        · simp only [List.length_cons]
          omega
        · rw [hiLoop, if_pos hinc]
          exact heq
        · obtain ⟨hall, ⟨xh, hxh, hxheq⟩, ⟨xl, hxl, hxleq⟩⟩ := hcov
          have hcurb := hall _ (List.mem_cons_self _ _)
          have hcurbh : max cur.high b.high ≤ m.high := hcurb.1
          have hcurbl : m.low ≤ min cur.low b.low := hcurb.2
          refine ⟨?_, ?_, ?_⟩
          · intro x hx
            rcases List.mem_cons.1 hx with rfl | hx
            · exact ⟨le_trans (le_max_left _ _) hcurbh,
                le_trans hcurbl (min_le_left _ _)⟩
            · rcases List.mem_cons.1 hx with rfl | hx
              · exact ⟨le_trans (le_max_right _ _) hcurbh,
                  le_trans hcurbl (min_le_right _ _)⟩
              · exact hall x (List.mem_cons_of_mem _ hx)
          · rcases List.mem_cons.1 hxh with rfl | hxh
            · rcases max_choice cur.high b.high with hc | hc
              · exact ⟨cur, List.mem_cons_self _ _, by rw [← hxheq]; exact hc.symm⟩
              · exact ⟨b, List.mem_cons_of_mem _ (List.mem_cons_self _ _),
                  by rw [← hxheq]; exact hc.symm⟩
            · exact ⟨xh, List.mem_cons_of_mem _ (List.mem_cons_of_mem _ hxh), hxheq⟩
          · rcases List.mem_cons.1 hxl with rfl | hxl
            · rcases min_choice cur.low b.low with hc | hc
              · exact ⟨cur, List.mem_cons_self _ _, by rw [← hxleq]; exact hc.symm⟩
              · exact ⟨b, List.mem_cons_of_mem _ (List.mem_cons_self _ _),
                  by rw [← hxleq]; exact hc.symm⟩
            · exact ⟨xl, List.mem_cons_of_mem _ (List.mem_cons_of_mem _ hxl), hxleq⟩
      · refine ⟨[], b :: bs, cur, rfl, le_refl _, ?_, coversGroup_self cur⟩
        rw [hiLoop, if_neg hinc]
        rfl

/-- Strong-induction core of the candle-merger specification. -/
theorem handle_inclusion_groups : ∀ (n : ℕ) (l : List Bar), l.length ≤ n →
    (handle_inclusion l).length ≤ l.length ∧
    ∃ gs : List (List Bar), (∀ g ∈ gs, g ≠ []) ∧ gs.flatten = l ∧
      List.Forall₂ coversGroup (handle_inclusion l) gs := by
  intro n
  induction n with
  | zero =>
      intro l hl
      have hnil : l = [] := List.length_eq_zero.1 (Nat.le_zero.1 hl)
      subst hnil
      exact ⟨le_refl _, [], by simp, rfl, List.Forall₂.nil⟩
  | succ n ih =>
      intro l hl
      cases l with
      | nil => exact ⟨le_refl _, [], by simp, rfl, List.Forall₂.nil⟩
      | cons b bs =>
          obtain ⟨taken, rest', m, hsplit, hlen, heq, hcov⟩ := hiLoop_spec bs b
          have hbs : rest'.length ≤ bs.length := by rw [hsplit]; simp
          have hlen' : rest'.length ≤ n := by
            simp only [List.length_cons] at hl
            omega
          obtain ⟨ihlen, gs, hne, hflat, hfa⟩ := ih rest' hlen'
          have hh : handle_inclusion (b :: bs) = m :: handle_inclusion rest' := heq
          refine ⟨?_, (b :: taken) :: gs, ?_, ?_, ?_⟩
          · rw [hh]
            simp only [List.length_cons]
            omega
          · intro g hg
            rcases List.mem_cons.1 hg with rfl | hg
            · simp
            · exact hne g hg
          · simp only [List.flatten_cons, hflat, List.cons_append, ← hsplit]
          · rw [hh]
            exact List.Forall₂.cons hcov hfa

/-- C4: the candle merger never lengthens the sequence, maps empty input to
empty output, and each merged bar's `[low, high]` interval is the union
(max of highs, min of lows, both attained) of a non-empty contiguous group of
source bars, the groups concatenating back to the input. -/
theorem handle_inclusion_spec (l : List Bar) :
    (l = [] → handle_inclusion l = []) ∧
    (handle_inclusion l).length ≤ l.length ∧
    ∃ gs : List (List Bar), (∀ g ∈ gs, g ≠ []) ∧ gs.flatten = l ∧
      List.Forall₂ coversGroup (handle_inclusion l) gs := by
  have h := handle_inclusion_groups l.length l (le_refl _)
  exact ⟨fun he => by subst he; rfl, h.1, h.2⟩

/-- Witness for C4's empty-input conjunct. -/
theorem handle_inclusion_spec_witness :
    ([] : List Bar) = [] ∧ handle_inclusion ([] : List Bar) = [] :=
  ⟨rfl, (handle_inclusion_spec []).1 rfl⟩

/-! ## C7: scoring determinism and monotonicity -/

/-- The volume ratio is monotone in the current volume (its denominator
`max(ma20_vol, 1)` is positive). -/
theorem volRatio_mono (v w m : ℚ) (h : v ≤ w) : volRatio v m ≤ volRatio w m := by
  have hm : (0 : ℚ) < max m 1 := lt_of_lt_of_le one_pos (le_max_right m 1)
  exact (div_le_div_iff_of_pos_right hm).2 h

/-- The 三买 volume sub-score is non-decreasing in the volume ratio. -/
theorem scoreB3vol_mono (x y : ℚ) (h : x ≤ y) : scoreB3vol x ≤ scoreB3vol y := by
  unfold scoreB3vol
  split_ifs <;> first | omega | (exfalso; linarith)

/-- The sell volume sub-score is non-decreasing in the volume ratio. -/
theorem scoreSellVol_mono (x y : ℚ) (h : x ≤ y) : scoreSellVol x ≤ scoreSellVol y := by
  unfold scoreSellVol
  split_ifs <;> first | omega | (exfalso; linarith)

/-- The buy market-environment sub-score is non-decreasing in the trend
rank (bear < neutral < bull). -/
theorem scoreBuyTrend_mono (t t' : Trend) (h : t.rank ≤ t'.rank) :
    scoreBuyTrend t ≤ scoreBuyTrend t' := by
  cases t <;> cases t' <;> simp_all [Trend.rank, scoreBuyTrend]

/-- The buy grade bands are monotone: a higher total score never yields a
lower grade. -/
theorem buyGradeRank_mono (s s' : ℕ) (h : s ≤ s') :
    ((buyGradeOf s).1).rank ≤ ((buyGradeOf s').1).rank := by
  unfold buyGradeOf
  split_ifs <;> simp [Grade.rank] <;> omega

/-- The sell grade bands are monotone. -/
theorem sellGradeRank_mono (s s' : ℕ) (h : s ≤ s') :
    ((sellGradeOf s).1).rank ≤ ((sellGradeOf s').1).rank := by
  unfold sellGradeOf
  split_ifs <;> simp [Grade.rank] <;> omega

/-- C7: both scorers are deterministic (pure functions of the context), and
the returned grade is monotonically non-decreasing when a single
positively-weighted factor improves with the rest of the context fixed:
the volume ratio of the third-buy scorer, the market trend, and the
sub-level confirmation flag (and volume / sub-level for the sell scorer). -/
theorem scoring_deterministic_monotone :
    (∀ (c : BuyCtx) (st : BuySigType), score_buy_signal c st = score_buy_signal c st) ∧
    (∀ c : SellCtx, score_sell_signal c = score_sell_signal c) ∧
    (∀ (c : BuyCtx) (v w : ℚ), v ≤ w →
      ((score_buy_signal { c with current_vol := v } BuySigType.buy3).grade).rank ≤
      ((score_buy_signal { c with current_vol := w } BuySigType.buy3).grade).rank) ∧
    (∀ (c : BuyCtx) (t t' : Trend), t.rank ≤ t'.rank →
      ((score_buy_signal { c with market_trend := t } BuySigType.buy3).grade).rank ≤
      ((score_buy_signal { c with market_trend := t' } BuySigType.buy3).grade).rank) ∧
    (∀ c : BuyCtx,
      ((score_buy_signal { c with sublevel_confirm := false } BuySigType.buy3).grade).rank ≤
      ((score_buy_signal { c with sublevel_confirm := true } BuySigType.buy3).grade).rank) ∧
    (∀ (c : SellCtx) (v w : ℚ), v ≤ w →
      ((score_sell_signal { c with current_vol := v }).grade).rank ≤
      ((score_sell_signal { c with current_vol := w }).grade).rank) ∧
    (∀ c : SellCtx,
      ((score_sell_signal { c with sublevel_confirm := false }).grade).rank ≤
      ((score_sell_signal { c with sublevel_confirm := true }).grade).rank) := by
  refine ⟨fun c st => rfl, fun c => rfl, ?_, ?_, ?_, ?_, ?_⟩
  · intro c v w hv
    have h2 := scoreB3vol_mono _ _ (volRatio_mono v w c.ma20_vol hv)
    dsimp only [score_buy_signal]
    apply buyGradeRank_mono
    omega
  · intro c t t' ht
    have h2 := scoreBuyTrend_mono t t' ht
    dsimp only [score_buy_signal]
    apply buyGradeRank_mono
    omega
  · intro c
    have h2 : scoreBuySublevel false ≤ scoreBuySublevel true := by decide
    dsimp only [score_buy_signal]
    apply buyGradeRank_mono
    omega
  · intro c v w hv
    have h2 := scoreSellVol_mono _ _ (volRatio_mono v w c.ma20_vol hv)
    dsimp only [score_sell_signal]
    apply sellGradeRank_mono
    omega
  · intro c
    have h2 : scoreSellSublevel false ≤ scoreSellSublevel true := by decide
    dsimp only [score_sell_signal]
    apply sellGradeRank_mono
    omega

/-- Witness for C7: an improved volume ratio at the default third-buy
context. -/
theorem scoring_deterministic_monotone_witness :
    (0 : ℚ) ≤ 1 ∧
    ((score_buy_signal { ({} : BuyCtx) with current_vol := 0 } BuySigType.buy3).grade).rank ≤
    ((score_buy_signal { ({} : BuyCtx) with current_vol := 1 } BuySigType.buy3).grade).rank :=
  ⟨by norm_num, scoring_deterministic_monotone.2.2.1 {} 0 1 (by norm_num)⟩

/-! ## C1 / C2: the classification cascade and the dead second-buy branch -/

/-- A 20-bar state whose last three strokes run down→up→down while neither a
sell signal nor the third-buy guard fires: branch 3 is reached and its
`end_idx` access raises. -/
def c1State : CState :=
  { closeCol := [17, 17, 17, 17, 17, 17, 17, 17, 17, 17, 17, 17, 17, 17, 17, 17, 17, 17, 17, 16]
    highCol := [21, 21, 21, 21, 21, 21, 21, 21, 21, 21, 21, 21, 21, 21, 21, 21, 21, 21, 21, 21]
    lowCol := [15, 15, 15, 15, 15, 15, 15, 15, 15, 15, 15, 15, 15, 15, 15, 15, 15, 14, 12, 13]
    volumeCol := none
    macdHistCol := none
    strokes := [⟨SDir.down, 30, 15⟩, ⟨SDir.up, 15, 18⟩, ⟨SDir.down, 18, 16⟩]
    zhongshu := ⟨10, 20⟩ }

/-- C1 counterexample: on `c1State` the classifier does **not** produce one
of the signal categories — it raises `KeyError('end_idx')` (the stroke
dictionaries have no `end_idx` key), so no `Except.ok` outcome exists and the
caller's catch-all turns the analysis into `None`. -/
theorem classify_total_counterexample :
    classifySignal c1State = Except.error (PyError.keyError "end_idx") ∧
    ∀ r : SigResult, classifySignal c1State ≠ Except.ok r := by
  have heq : classifySignal c1State = Except.error (PyError.keyError "end_idx") := rfl
  exact ⟨heq, fun r hr => by rw [heq] at hr; exact Except.noConfusion hr⟩

/-- The sell branch always produces a sell-family signal. -/
theorem sellBranch_cases (s : CState) :
    (∃ g, (sellBranch s).signal = SigTag.sell3Scored g) ∨
    (sellBranch s).signal = SigTag.sell2 := by
  unfold sellBranch
  dsimp only
  cases hst : (check_sell_signals (currentPrice s) s.strokes s.zhongshu).sell_type with
  | none =>
      right
      rfl
  | some st =>
      cases st with
      | sell3 =>
          left
          dsimp only
          split_ifs <;> exact ⟨_, rfl⟩
      | sell2 =>
          right
          rfl

/-- The third-buy branch always produces a third-buy-family signal (or the
no-signal default when its inner guard fails). -/
theorem buy3Branch_cases (s : CState) (d : DivRes) :
    (buy3Branch s d).signal = SigTag.breakObserve ∨
    (buy3Branch s d).signal = SigTag.breakInsufficient ∨
    (∃ g, (buy3Branch s d).signal = SigTag.buy3Div g) ∨
    (∃ g, (buy3Branch s d).signal = SigTag.buy3Scored g) ∨
    (buy3Branch s d).signal = SigTag.noSig := by
  unfold buy3Branch
  dsimp only
  split_ifs <;>
    first
      | exact Or.inl rfl
      | exact Or.inr (Or.inl rfl)
      | exact Or.inr (Or.inr (Or.inl ⟨_, rfl⟩))
      | exact Or.inr (Or.inr (Or.inr (Or.inl ⟨_, rfl⟩)))
      | exact Or.inr (Or.inr (Or.inr (Or.inr rfl)))

/-- The first-buy branch always produces a first-buy-family signal (or the
no-signal default). -/
theorem buy1Branch_cases (s : CState) (d : DivRes) :
    (buy1Branch s d).signal = SigTag.buy1Div ∨
    (buy1Branch s d).signal = SigTag.buy1 ∨
    (buy1Branch s d).signal = SigTag.noSig := by
  unfold buy1Branch
  dsimp only
  split_ifs <;>
    first
      | exact Or.inl rfl
      | exact Or.inr (Or.inl rfl)
      | exact Or.inr (Or.inr rfl)


/-- C1 (amended): the cascade evaluates its branches in strict priority
order (sell, then third buy, then the second-buy pattern, then first buy,
then wait) with the first matching guard winning, and it yields exactly one
outcome: one signal of the matching branch's family — **except** that it
raises `KeyError('end_idx')` precisely when no sell signal fires, the
third-buy guard fails, and the last three strokes form down→up→down (with at
least 3 strokes and 5 bars); on that state no category is produced at all. -/
theorem classify_priority_spec (s : CState) (hbars : 20 ≤ s.closeCol.length) :
    (∀ e : PyError, classifySignal s = Except.error e ↔
      (e = PyError.keyError "end_idx" ∧ sellGuard s = false ∧ buy3Guard s = false ∧
       buy2Guard s = true ∧ buy2Pattern s = true)) ∧
    (sellGuard s = true →
      classifySignal s = Except.ok (sellBranch s) ∧
      ((∃ g, (sellBranch s).signal = SigTag.sell3Scored g) ∨
        (sellBranch s).signal = SigTag.sell2)) ∧
    (sellGuard s = false → buy3Guard s = true →
      classifySignal s = Except.ok
        (buy3Branch s (check_divergence (currentPrice s) s.strokes s.zhongshu)) ∧
      ((buy3Branch s (check_divergence (currentPrice s) s.strokes s.zhongshu)).signal
          = SigTag.breakObserve ∨
       (buy3Branch s (check_divergence (currentPrice s) s.strokes s.zhongshu)).signal
          = SigTag.breakInsufficient ∨
       (∃ g, (buy3Branch s (check_divergence (currentPrice s) s.strokes s.zhongshu)).signal
          = SigTag.buy3Div g) ∨
       (∃ g, (buy3Branch s (check_divergence (currentPrice s) s.strokes s.zhongshu)).signal
          = SigTag.buy3Scored g) ∨
       (buy3Branch s (check_divergence (currentPrice s) s.strokes s.zhongshu)).signal
          = SigTag.noSig)) ∧
    (sellGuard s = false → buy3Guard s = false → buy2Guard s = true →
      buy2Pattern s = false → classifySignal s = Except.ok noSigResult) ∧
    (sellGuard s = false → buy3Guard s = false → buy2Guard s = false →
      buy1Guard s = true →
      classifySignal s = Except.ok
        (buy1Branch s (check_divergence (currentPrice s) s.strokes s.zhongshu)) ∧
      ((buy1Branch s (check_divergence (currentPrice s) s.strokes s.zhongshu)).signal
          = SigTag.buy1Div ∨
       (buy1Branch s (check_divergence (currentPrice s) s.strokes s.zhongshu)).signal
          = SigTag.buy1 ∨
       (buy1Branch s (check_divergence (currentPrice s) s.strokes s.zhongshu)).signal
          = SigTag.noSig)) ∧
    (sellGuard s = false → buy3Guard s = false → buy2Guard s = false →
      buy1Guard s = false → classifySignal s = Except.ok noSigResult) := by
  refine ⟨?_, ?_, ?_, ?_, ?_, ?_⟩
  · intro e
    cases hsell : sellGuard s
    · cases h3 : buy3Guard s
      · cases h2 : buy2Guard s
        · cases h1 : buy1Guard s
          · simp [classifySignal, hsell, h3, h2, h1]
          · simp [classifySignal, hsell, h3, h2, h1]
        · cases hp : buy2Pattern s
          · simp [classifySignal, hsell, h3, h2, hp]
          · simp [classifySignal, hsell, h3, h2, hp, eq_comm]
      · simp [classifySignal, hsell, h3]
    · simp [classifySignal, hsell]
  · intro hsell
    refine ⟨?_, sellBranch_cases s⟩
    simp [classifySignal, hsell]
  · intro hsell h3
    refine ⟨?_, buy3Branch_cases s _⟩
    simp [classifySignal, hsell, h3]
  · intro hsell h3 h2 hp
    simp [classifySignal, hsell, h3, h2, hp]
  · intro hsell h3 h2 h1
    refine ⟨?_, buy1Branch_cases s _⟩
    simp [classifySignal, hsell, h3, h2, h1]
  · intro hsell h3 h2 h1
    simp [classifySignal, hsell, h3, h2, h1]


/-- A 20-bar state with no strokes: every guard is off. -/
def cWaitState : CState :=
  { closeCol := [15, 15, 15, 15, 15, 15, 15, 15, 15, 15, 15, 15, 15, 15, 15, 15, 15, 15, 15, 15]
    highCol := [21, 21, 21, 21, 21, 21, 21, 21, 21, 21, 21, 21, 21, 21, 21, 21, 21, 21, 21, 21]
    lowCol := [14, 14, 14, 14, 14, 14, 14, 14, 14, 14, 14, 14, 14, 14, 14, 14, 14, 14, 14, 14]
    volumeCol := none
    macdHistCol := none
    strokes := []
    zhongshu := ⟨10, 20⟩ }

/-- Witness for C1 (amended): with every guard off the cascade returns the
no-signal default. -/
theorem classify_priority_spec_witness :
    20 ≤ cWaitState.closeCol.length ∧
    classifySignal cWaitState = Except.ok noSigResult :=
  ⟨by decide,
    (classify_priority_spec cWaitState (by decide)).2.2.2.2.2
      (by rfl) (by rfl) (by rfl) (by rfl)⟩

/-- A 20-bar state satisfying all of C2's premises: last three strokes
down→up→down, the current bar's low 13 more than 2% above the first
down-stroke's end low 12, a confirmed bottom fractal (low 12 below lows 14
and 13), a strictly smaller absolute MACD-histogram sum on the pullback
window (|-3|) than at the original low (|-15|), and no sell or third-buy
guard matching. -/
def c2State : CState :=
  { closeCol := [17, 17, 17, 17, 17, 17, 17, 17, 17, 17, 17, 17, 17, 17, 17, 17, 17, 17, 17, 16]
    highCol := [21, 21, 21, 21, 21, 21, 21, 21, 21, 21, 21, 21, 21, 21, 21, 21, 21, 21, 21, 21]
    lowCol := [15, 15, 15, 15, 15, 15, 15, 15, 15, 15, 15, 15, 15, 15, 15, 15, 15, 14, 12, 13]
    volumeCol := none
    macdHistCol := some [0, 0, 0, -5, -5, -5, 0, 0, 0, 0, 0, 0, 0, 0, 0, 0, 0, -1, -1, -1]
    strokes := [⟨SDir.down, 30, 12⟩, ⟨SDir.up, 12, 18⟩, ⟨SDir.down, 18, 16⟩]
    zhongshu := ⟨10, 20⟩ }

/-- C2: on a state satisfying every premise of the second-buy rule the code
does not emit a second buy — branch 3 evaluates `recent_strokes[0]['end_idx']`,
a key `find_strokes` never writes, and raises `KeyError('end_idx')` (turned
into `None` by the caller's catch-all), so neither 强力二买 nor 标准二买 is
reachable. -/
theorem secondbuy_keyerror :
    buy2Pattern c2State = true ∧
    sellGuard c2State = false ∧
    buy3Guard c2State = false ∧
    (102 / 100) * (c2State.strokes.getD 0 default).endP < c2State.lowCol.getD 19 0 ∧
    c2State.lowCol.getD 18 0 < c2State.lowCol.getD 17 0 ∧
    c2State.lowCol.getD 18 0 < c2State.lowCol.getD 19 0 ∧
    |(c2State.macdHistCol.getD []).getD 17 0 + (c2State.macdHistCol.getD []).getD 18 0 +
      (c2State.macdHistCol.getD []).getD 19 0| <
    |(c2State.macdHistCol.getD []).getD 3 0 + (c2State.macdHistCol.getD []).getD 4 0 +
      (c2State.macdHistCol.getD []).getD 5 0| ∧
    classifySignal c2State = Except.error (PyError.keyError "end_idx") := by
  refine ⟨by decide, by rfl, by rfl, ?_, by decide, by decide, ?_, by rfl⟩
  · show (102 / 100 : ℚ) * 12 < 13
    norm_num
  · show |(-1 : ℚ) + -1 + -1| < |(-5 : ℚ) + -5 + -5|
    norm_num

/-! ## C8: malformed input is swallowed, not surfaced -/

/-- A 20-row fetched frame with every provider column except `close`. -/
def malformedDf : DFrame :=
  [[("trade_date", 1), ("open", 10), ("high", 11), ("low", 9), ("vol", 100), ("pct_chg", 1)],
   [("trade_date", 2), ("open", 10), ("high", 11), ("low", 9), ("vol", 100), ("pct_chg", 1)],
   [("trade_date", 3), ("open", 10), ("high", 11), ("low", 9), ("vol", 100), ("pct_chg", 1)],
   [("trade_date", 4), ("open", 10), ("high", 11), ("low", 9), ("vol", 100), ("pct_chg", 1)],
   [("trade_date", 5), ("open", 10), ("high", 11), ("low", 9), ("vol", 100), ("pct_chg", 1)],
   [("trade_date", 6), ("open", 10), ("high", 11), ("low", 9), ("vol", 100), ("pct_chg", 1)],
   [("trade_date", 7), ("open", 10), ("high", 11), ("low", 9), ("vol", 100), ("pct_chg", 1)],
   [("trade_date", 8), ("open", 10), ("high", 11), ("low", 9), ("vol", 100), ("pct_chg", 1)],
   [("trade_date", 9), ("open", 10), ("high", 11), ("low", 9), ("vol", 100), ("pct_chg", 1)],
   [("trade_date", 10), ("open", 10), ("high", 11), ("low", 9), ("vol", 100), ("pct_chg", 1)],
   [("trade_date", 11), ("open", 10), ("high", 11), ("low", 9), ("vol", 100), ("pct_chg", 1)],
   [("trade_date", 12), ("open", 10), ("high", 11), ("low", 9), ("vol", 100), ("pct_chg", 1)],
   [("trade_date", 13), ("open", 10), ("high", 11), ("low", 9), ("vol", 100), ("pct_chg", 1)],
   [("trade_date", 14), ("open", 10), ("high", 11), ("low", 9), ("vol", 100), ("pct_chg", 1)],
   [("trade_date", 15), ("open", 10), ("high", 11), ("low", 9), ("vol", 100), ("pct_chg", 1)],
   [("trade_date", 16), ("open", 10), ("high", 11), ("low", 9), ("vol", 100), ("pct_chg", 1)],
   [("trade_date", 17), ("open", 10), ("high", 11), ("low", 9), ("vol", 100), ("pct_chg", 1)],
   [("trade_date", 18), ("open", 10), ("high", 11), ("low", 9), ("vol", 100), ("pct_chg", 1)],
   [("trade_date", 19), ("open", 10), ("high", 11), ("low", 9), ("vol", 100), ("pct_chg", 1)],
   [("trade_date", 20), ("open", 10), ("high", 11), ("low", 9), ("vol", 100), ("pct_chg", 1)]]

/-- A well-formed but 5-row fetched frame (fewer than the 20-bar minimum). -/
def shortDf : DFrame :=
  [[("trade_date", 1), ("open", 10), ("high", 11), ("low", 9), ("close", 10), ("vol", 100), ("pct_chg", 1)],
   [("trade_date", 2), ("open", 10), ("high", 11), ("low", 9), ("close", 10), ("vol", 100), ("pct_chg", 1)],
   [("trade_date", 3), ("open", 10), ("high", 11), ("low", 9), ("close", 10), ("vol", 100), ("pct_chg", 1)],
   [("trade_date", 4), ("open", 10), ("high", 11), ("low", 9), ("close", 10), ("vol", 100), ("pct_chg", 1)],
   [("trade_date", 5), ("open", 10), ("high", 11), ("low", 9), ("close", 10), ("vol", 100), ("pct_chg", 1)]]

/-- C8 counterexample: a malformed frame (missing `close`, 20 rows) and a
legitimately short history produce the **same** `None` outcome from
`analyze_stock` — no typed data-shape error reaches the caller, so the two
conditions are not distinguishable as the claim requires. -/
theorem analyze_error_counterexample :
    analyze_stock (some malformedDf) = none ∧
    analyze_stock (some shortDf) = none ∧
    20 ≤ malformedDf.length := by
  refine ⟨by rfl, by rfl, by decide⟩

/-- C8 (amended): a missing price column raises `KeyError('close')` inside
the body of `analyze_stock`, but the blanket `except Exception` swallows it
and returns `None` — exactly the plain no-signal outcome of the
insufficient-data path; no typed error is surfaced. -/
theorem analyze_error_swallowed :
    analyzeBody (some malformedDf) = Except.error (PyError.keyError "close") ∧
    analyzeBody (some shortDf) = Except.ok none ∧
    analyze_stock (some malformedDf) = none ∧
    analyze_stock (some shortDf) = none := by
  refine ⟨by rfl, by rfl, by rfl, by rfl⟩


end Chanlun
